import Mathlib

/-!
Shallow embedding of the multimodal emotion-analysis core of the
sevenpercent app: the emotion fusion function (`combineEmotions` from the
`useMultimodalAI` hook), the heuristic vocal emotion classifier, the rolling
variation histories and the vocal analysis loop (`VoiceAnalysisService.ts`),
the transcription lifecycle handlers, and the hook's listening /
face-detection control flags.  Numeric values are modelled as exact
rationals (or reals where the source takes a square root); JavaScript
strings are modelled as `List Char` where trimming semantics matter.
-/

namespace SevenPercent

/-! ### Emotion label types (FaceEmotionService.ts / VoiceAnalysisService.ts) -/

/-- Facial emotion labels (`Emotion` union type in FaceEmotionService.ts). -/
inductive Emotion where
  | happy | sad | angry | fearful | neutral | surprised | disgusted
  deriving DecidableEq, Repr

/-- The string value of a facial emotion label (TS string-literal union). -/
def Emotion.str : Emotion → String
  | .happy => "happy"
  | .sad => "sad"
  | .angry => "angry"
  | .fearful => "fearful"
  | .neutral => "neutral"
  | .surprised => "surprised"
  | .disgusted => "disgusted"

/-- Vocal emotion labels (`VoiceEmotion` union type in VoiceAnalysisService.ts). -/
inductive VoiceEmotion where
  | happy | sad | angry | fearful | neutral
  deriving DecidableEq, Repr

/-- The string value of a vocal emotion label (TS string-literal union). -/
def VoiceEmotion.str : VoiceEmotion → String
  | .happy => "happy"
  | .sad => "sad"
  | .angry => "angry"
  | .fearful => "fearful"
  | .neutral => "neutral"

/-! ### Data records -/

/-- `VoiceMetrics` (VoiceAnalysisService.ts), generic in the numeric field so
the same rule table can be evaluated over `ℚ` and used over `ℝ` in the loop. -/
structure VoiceMetrics (K : Type) where
  pitch : K
  pitchVariation : K
  volume : K
  volumeVariation : K
  speechRate : K
  energy : K
  deriving DecidableEq

/-- `VoiceEmotionResult` (VoiceAnalysisService.ts). -/
structure VoiceEmotionResult (K : Type) where
  emotion : VoiceEmotion
  confidence : K
  metrics : VoiceMetrics K
  timestamp : ℕ

/-- `EmotionResult` (FaceEmotionService.ts): dominant label, its confidence,
the per-label score map, and a timestamp. -/
structure EmotionResult where
  dominant : Emotion
  confidence : ℚ
  all : Emotion → ℚ
  timestamp : ℕ

/-- The `{ emotion, confidence }` record returned by `combineEmotions`. -/
structure CombinedEmotion where
  emotion : String
  confidence : ℚ
  deriving DecidableEq

/-! ### Emotion fusion (`combineEmotions` in the useMultimodalAI hook) -/

/-- `combineEmotions(facial, voice)`: null handling, agreement boost with the
Mehrabian weights 0.55 / 0.38 and the ×1.2 boost clamped to 1, otherwise the
modality with the higher weighted confidence (`facialScore >= voiceScore`
prefers facial). -/
def combineEmotions (facial : Option EmotionResult) (voice : Option (VoiceEmotionResult ℚ)) :
    Option CombinedEmotion :=
  match facial, voice with
  | none, none => none
  | none, some v => some ⟨VoiceEmotion.str v.emotion, v.confidence⟩
  | some f, none => some ⟨Emotion.str f.dominant, f.confidence⟩
  | some f, some v =>
    let facialWeight : ℚ := 55 / 100
    let voiceWeight : ℚ := 38 / 100
    if Emotion.str f.dominant = VoiceEmotion.str v.emotion then
      some ⟨Emotion.str f.dominant,
        min 1 ((f.confidence * facialWeight + v.confidence * voiceWeight) * (12 / 10))⟩
    else
      let facialScore := f.confidence * facialWeight
      let voiceScore := v.confidence * voiceWeight
      if voiceScore ≤ facialScore then some ⟨Emotion.str f.dominant, facialScore⟩
      else some ⟨VoiceEmotion.str v.emotion, voiceScore⟩

/-! ### Heuristic emotion classifier (`detectEmotion` in VoiceAnalysisService.ts) -/

/-- The score record built by `detectEmotion` (one field per label). -/
structure EmotionScores (K : Type) where
  happy : K
  sad : K
  angry : K
  fearful : K
  neutral : K
  deriving DecidableEq

/-- Rule `pitch ∈ [200,400] → happy += 0.3`. -/
def rulePitchHappy {K : Type} [LinearOrderedField K] (m : VoiceMetrics K)
    (s : EmotionScores K) : EmotionScores K :=
  if 200 ≤ m.pitch ∧ m.pitch ≤ 400 then { s with happy := s.happy + 3 / 10 } else s

/-- Rule `pitch ∈ [150,350] ∧ volume > 0.7 → angry += 0.3`. -/
def rulePitchAngry {K : Type} [LinearOrderedField K] (m : VoiceMetrics K)
    (s : EmotionScores K) : EmotionScores K :=
  if 150 ≤ m.pitch ∧ m.pitch ≤ 350 ∧ 7 / 10 < m.volume then
    { s with angry := s.angry + 3 / 10 }
  else s

/-- Rule `pitch ∈ [100,200] → sad += 0.3`. -/
def rulePitchSad {K : Type} [LinearOrderedField K] (m : VoiceMetrics K)
    (s : EmotionScores K) : EmotionScores K :=
  if 100 ≤ m.pitch ∧ m.pitch ≤ 200 then { s with sad := s.sad + 3 / 10 } else s

/-- Rule `pitch ∈ [180,350] → fearful += 0.2`. -/
def rulePitchFearful {K : Type} [LinearOrderedField K] (m : VoiceMetrics K)
    (s : EmotionScores K) : EmotionScores K :=
  if 180 ≤ m.pitch ∧ m.pitch ≤ 350 then { s with fearful := s.fearful + 2 / 10 } else s

/-- Rule on volume: `> 0.7 → angry += 0.2, happy += 0.1`;
`else < 0.3 → sad += 0.3, fearful += 0.1`. -/
def ruleVolume {K : Type} [LinearOrderedField K] (m : VoiceMetrics K)
    (s : EmotionScores K) : EmotionScores K :=
  if 7 / 10 < m.volume then { s with angry := s.angry + 2 / 10, happy := s.happy + 1 / 10 }
  else if m.volume < 3 / 10 then { s with sad := s.sad + 3 / 10, fearful := s.fearful + 1 / 10 }
  else s

/-- Rule on pitch variation: `> 40 → angry += 0.2, fearful += 0.2`;
`elif > 25 → happy += 0.2`; `elif < 15 → sad += 0.2, neutral += 0.1`. -/
def rulePitchVariation {K : Type} [LinearOrderedField K] (m : VoiceMetrics K)
    (s : EmotionScores K) : EmotionScores K :=
  if 40 < m.pitchVariation then
    { s with angry := s.angry + 2 / 10, fearful := s.fearful + 2 / 10 }
  else if 25 < m.pitchVariation then { s with happy := s.happy + 2 / 10 }
  else if m.pitchVariation < 15 then
    { s with sad := s.sad + 2 / 10, neutral := s.neutral + 1 / 10 }
  else s

/-- Rule on energy: `> 0.6 → angry += 0.2, happy += 0.1`; `elif < 0.3 → sad += 0.2`. -/
def ruleEnergy {K : Type} [LinearOrderedField K] (m : VoiceMetrics K)
    (s : EmotionScores K) : EmotionScores K :=
  if 6 / 10 < m.energy then { s with angry := s.angry + 2 / 10, happy := s.happy + 1 / 10 }
  else if m.energy < 3 / 10 then { s with sad := s.sad + 2 / 10 }
  else s

/-- The cumulative rule table of `detectEmotion`, applied to the initial
scores `{happy: 0, sad: 0, angry: 0, fearful: 0, neutral: 0.3}` in source
order. -/
def scoreRules {K : Type} [LinearOrderedField K] (m : VoiceMetrics K) : EmotionScores K :=
  ruleEnergy m (rulePitchVariation m (ruleVolume m (rulePitchFearful m
    (rulePitchSad m (rulePitchAngry m (rulePitchHappy m ⟨0, 0, 0, 0, 3 / 10⟩))))))

/-- The `Object.entries(scores)` enumeration, in the fixed source order
happy, sad, angry, fearful, neutral. -/
def scoreEntries {K : Type} (s : EmotionScores K) : List (VoiceEmotion × K) :=
  [(.happy, s.happy), (.sad, s.sad), (.angry, s.angry), (.fearful, s.fearful),
   (.neutral, s.neutral)]

/-- One step of the max-score loop: update only on a strictly larger score
(`score > maxScore`), so earlier labels win ties. -/
def maxStep {K : Type} [LinearOrderedField K] (acc entry : VoiceEmotion × K) :
    VoiceEmotion × K :=
  if acc.2 < entry.2 then entry else acc

/-- The max-score loop of `detectEmotion`: fold over the entries starting
from `maxScore = 0`, `dominantEmotion = neutral`; the reported confidence is
`Math.min(1, maxScore)`. -/
def pickDominant {K : Type} [LinearOrderedField K] (s : EmotionScores K) :
    VoiceEmotion × K :=
  let best := (scoreEntries s).foldl maxStep (VoiceEmotion.neutral, 0)
  (best.1, min 1 best.2)

/-- `detectEmotion(metrics)`: additive rule scoring followed by the
max-score loop. -/
def detectEmotion {K : Type} [LinearOrderedField K] (m : VoiceMetrics K) :
    VoiceEmotion × K :=
  pickDominant (scoreRules m)

/-! ### Rolling histories and standard deviation (VoiceAnalysisService.ts) -/

/-- `values.reduce((a, b) => a + b, 0)`: left fold with initial value 0. -/
def listSum (l : List ℝ) : ℝ := l.foldl (· + ·) 0

/-- `calculateStdDev(values)`: 0 for an empty list, otherwise the square root
of the mean of squared deviations from the mean (population formula). -/
noncomputable def calculateStdDev (values : List ℝ) : ℝ :=
  if values.length = 0 then 0
  else
    let mean := listSum values / values.length
    let squareDiffs := values.map fun value => (value - mean) ^ 2
    Real.sqrt (listSum squareDiffs / values.length)

/-- Population standard deviation as the spec words it: the square root of
the average squared deviation from the window mean, 0 for an empty window.
Spec-side comparator for the refinement conjunct of the tracker claim. -/
noncomputable def popStdDevSpec (values : List ℝ) : ℝ :=
  if values = [] then 0
  else Real.sqrt ((values.map fun x => (x - values.sum / values.length) ^ 2).sum / values.length)

/-- One history update of the analysis loop: `push(x)` then
`if (history.length > 20) history.shift()`. -/
def pushHistory (history : List ℝ) (x : ℝ) : List ℝ :=
  let h := history ++ [x]
  if 20 < h.length then h.tail else h

/-! ### Vocal analysis loop (`runAnalysisLoop` in VoiceAnalysisService.ts) -/

/-- The service state read and written by one tick of `runAnalysisLoop`. -/
structure AnalysisLoopState where
  isListening : Bool
  hasAnalyser : Bool
  pitchHistory : List ℝ
  volumeHistory : List ℝ

/-- Observable outcome of one tick: the updated state, the emitted
`VoiceEmotionResult` (if any), and whether the next tick was scheduled. -/
structure AnalysisTickResult where
  state : AnalysisLoopState
  emission : Option (VoiceEmotionResult ℝ)
  rescheduled : Bool

/-- One tick of `runAnalysisLoop`: return immediately if not listening or no
analyser; otherwise gate on `energy > 0.1` (update both histories, recompute
the variation fields, classify, emit) and always schedule the next tick. -/
noncomputable def runAnalysisTick (s : AnalysisLoopState) (raw : VoiceMetrics ℝ)
    (now : ℕ) : AnalysisTickResult :=
  if s.isListening = true ∧ s.hasAnalyser = true then
    if 1 / 10 < raw.energy then
      let ph := pushHistory s.pitchHistory raw.pitch
      let vh := pushHistory s.volumeHistory raw.volume
      let m := { raw with pitchVariation := calculateStdDev ph,
                          volumeVariation := calculateStdDev vh }
      let e := detectEmotion m
      ⟨⟨s.isListening, s.hasAnalyser, ph, vh⟩, some ⟨e.1, e.2, m, now⟩, true⟩
    else ⟨s, none, true⟩
  else ⟨s, none, false⟩

/-! ### Transcription lifecycle (VoiceAnalysisService.ts) -/

/-- The lifecycle flags relevant to transcription control: the
`isTranscribing` intent flag and whether a recognition object exists. -/
structure RecognitionState where
  isTranscribing : Bool
  hasRecognition : Bool
  deriving DecidableEq

/-- The `onend` handler: schedule one restart (via `setTimeout(..., 100)`)
exactly when the intent flag is still set and a recognition object exists;
returns the scheduled delay in milliseconds, if any. -/
def onendSchedule (s : RecognitionState) : Option ℕ :=
  if s.isTranscribing = true ∧ s.hasRecognition = true then some 100 else none

/-- Observable outcome of the delayed restart callback: how many times
`recognition.start()` was attempted, whether a warning was logged, and how
many further retries the handler performed. -/
structure RestartAttemptResult where
  startAttempts : ℕ
  warnLogged : Bool
  extraRetries : ℕ
  deriving DecidableEq

/-- The body of the scheduled restart callback: re-check the intent flag,
attempt `recognition.start()` once; a throw is caught and logged, with no
further retry inside the handler. -/
def restartCallback (isTranscribingAtFire : Bool) (startThrows : Bool) :
    RestartAttemptResult :=
  if isTranscribingAtFire = true then
    if startThrows = true then ⟨1, true, 0⟩ else ⟨1, false, 0⟩
  else ⟨0, false, 0⟩

/-- Observable outcome of `startTranscription`: the state after the call,
the number of `recognition.start()` attempts, whether an error was logged,
and the exception (if any) that escapes to the caller. -/
structure StartTranscriptionResult where
  state : RecognitionState
  startAttempts : ℕ
  errorLogged : Bool
  thrownToCaller : Option String
  deriving DecidableEq

/-- `startTranscription()`: early-return when already transcribing or when
no recognition object exists; otherwise set the flag, try
`recognition.start()`, and on a throw log the error and reset the flag to
false — the exception is caught, so nothing propagates to the caller.
`startThrows` is the exception thrown by the underlying start, if any. -/
def startTranscription (s : RecognitionState) (startThrows : Option String) :
    StartTranscriptionResult :=
  if s.isTranscribing = true then ⟨s, 0, false, none⟩
  else if s.hasRecognition = false then ⟨s, 0, true, none⟩
  else
    match startThrows with
    | none => ⟨⟨true, s.hasRecognition⟩, 1, false, none⟩
    | some _ => ⟨⟨false, s.hasRecognition⟩, 1, true, none⟩

/-! ### Hook control flags (useMultimodalAI) -/

/-- The hook state touched by the four start/stop controls. -/
structure HookState where
  isInitialized : Bool
  isListening : Bool
  isFaceDetectionActive : Bool
  error : Option String
  deriving DecidableEq

/-- The error string set by the uninitialized guard of the start controls. -/
def notInitializedError : String := "Services not initialized. Call initialize() first."

/-- `startFaceDetection`: report an error when not initialized, otherwise
set `isFaceDetectionActive`. -/
def startFaceDetection (s : HookState) : HookState :=
  if s.isInitialized = false then { s with error := some notInitializedError }
  else { s with isFaceDetectionActive := true }

/-- `stopFaceDetection`: unconditionally clear `isFaceDetectionActive`. -/
def stopFaceDetection (s : HookState) : HookState :=
  { s with isFaceDetectionActive := false }

/-- `startListening`: report an error when not initialized, otherwise set
`isListening`. -/
def startListening (s : HookState) : HookState :=
  if s.isInitialized = false then { s with error := some notInitializedError }
  else { s with isListening := true }

/-- `stopListening`: unconditionally clear `isListening`. -/
def stopListening (s : HookState) : HookState :=
  { s with isListening := false }

/-! ### Transcription handler and message dispatch (useMultimodalAI) -/

/-- JavaScript `String.prototype.trim()`: strip leading and trailing
whitespace, modelled on the character list of the string. -/
def jsTrim (s : List Char) : List Char :=
  List.rdropWhile Char.isWhitespace (s.dropWhile Char.isWhitespace)

/-- A transcript segment as delivered to the hook
(`TranscriptionResult` in VoiceAnalysisService.ts). -/
structure TranscriptSegment where
  text : List Char
  isFinal : Bool
  confidence : ℚ
  timestamp : ℕ

/-- An outbound message-send triggered by `sendMessage`: the appended user
message's role and content (also the text sent to the backend). -/
structure SendEvent where
  role : String
  content : List Char
  deriving DecidableEq

/-- The message-sends triggered by `sendMessage(text)`: nothing when the
trimmed text is empty, otherwise exactly one user send with the trimmed
text. -/
def sendMessage (text : List Char) : List SendEvent :=
  if jsTrim text = [] then [] else [⟨"user", jsTrim text⟩]

/-- Observable outcome of the hook's `onTranscription` handler: the text and
finality forwarded to the consumer callback, the message-sends triggered,
and the resulting in-progress transcript. -/
structure TranscriptionEffect where
  forwardedText : List Char
  forwardedFinal : Bool
  sends : List SendEvent
  currentTranscript : List Char
  deriving DecidableEq

/-- The `onTranscription` handler wired in `initialize`: always store and
forward the segment verbatim; when it is final with non-empty trimmed text,
auto-send the trimmed text and clear the in-progress transcript. -/
def onTranscriptionHandler (result : TranscriptSegment) : TranscriptionEffect :=
  if result.isFinal = true ∧ jsTrim result.text ≠ [] then
    { forwardedText := result.text, forwardedFinal := result.isFinal,
      sends := sendMessage (jsTrim result.text), currentTranscript := [] }
  else
    { forwardedText := result.text, forwardedFinal := result.isFinal,
      sends := [], currentTranscript := result.text }

/-- The classifier input of the spec's worked example: pitch 300, loudness
(volume) 0.2, energy 0.5, pitch variation 10, loudness variation 0. -/
def metricsC3 : VoiceMetrics ℚ := ⟨300, 10, 2 / 10, 0, 0, 5 / 10⟩

/-- An all-zero feature frame (a silent tick). -/
def zeroMetricsR : VoiceMetrics ℝ := ⟨0, 0, 0, 0, 0, 0⟩

end SevenPercent

namespace SevenPercent

/-! ### Helper lemmas -/

theorem maxStep_le_self {K : Type} [LinearOrderedField K] (a p : VoiceEmotion × K) :
    a.2 ≤ (maxStep a p).2 := by
  unfold maxStep
  split_ifs with h
  · exact le_of_lt h
  · exact le_refl _

theorem maxStep_le_entry {K : Type} [LinearOrderedField K] (a p : VoiceEmotion × K) :
    p.2 ≤ (maxStep a p).2 := by
  unfold maxStep
  split_ifs with h
  · exact le_refl _
  · exact le_of_not_lt h

theorem foldl_maxStep_le {K : Type} [LinearOrderedField K]
    (l : List (VoiceEmotion × K)) (a : VoiceEmotion × K) :
    a.2 ≤ (l.foldl maxStep a).2 := by
  induction l generalizing a with
  | nil => exact le_refl _
  | cons x t ih => exact le_trans (maxStep_le_self a x) (ih (maxStep a x))

theorem foldl_maxStep_mem {K : Type} [LinearOrderedField K]
    (l : List (VoiceEmotion × K)) (a p : VoiceEmotion × K) (hp : p ∈ l) :
    p.2 ≤ (l.foldl maxStep a).2 := by
  induction l generalizing a with
  | nil => cases hp
  | cons x t ih =>
    rcases List.mem_cons.mp hp with h | h
    · subst h
      exact le_trans (maxStep_le_entry a p) (foldl_maxStep_le t _)
    · exact ih _ h

theorem rulePitchHappy_neutral {K : Type} [LinearOrderedField K] (m : VoiceMetrics K)
    (s : EmotionScores K) : (rulePitchHappy m s).neutral = s.neutral := by
  unfold rulePitchHappy
  split_ifs <;> rfl

theorem rulePitchAngry_neutral {K : Type} [LinearOrderedField K] (m : VoiceMetrics K)
    (s : EmotionScores K) : (rulePitchAngry m s).neutral = s.neutral := by
  unfold rulePitchAngry
  split_ifs <;> rfl

theorem rulePitchSad_neutral {K : Type} [LinearOrderedField K] (m : VoiceMetrics K)
    (s : EmotionScores K) : (rulePitchSad m s).neutral = s.neutral := by
  unfold rulePitchSad
  split_ifs <;> rfl

theorem rulePitchFearful_neutral {K : Type} [LinearOrderedField K] (m : VoiceMetrics K)
    (s : EmotionScores K) : (rulePitchFearful m s).neutral = s.neutral := by
  unfold rulePitchFearful
  split_ifs <;> rfl

theorem ruleVolume_neutral {K : Type} [LinearOrderedField K] (m : VoiceMetrics K)
    (s : EmotionScores K) : (ruleVolume m s).neutral = s.neutral := by
  unfold ruleVolume
  split_ifs <;> rfl

theorem ruleEnergy_neutral {K : Type} [LinearOrderedField K] (m : VoiceMetrics K)
    (s : EmotionScores K) : (ruleEnergy m s).neutral = s.neutral := by
  unfold ruleEnergy
  split_ifs <;> rfl

theorem rulePitchVariation_neutral_ge {K : Type} [LinearOrderedField K] (m : VoiceMetrics K)
    (s : EmotionScores K) : s.neutral ≤ (rulePitchVariation m s).neutral := by
  unfold rulePitchVariation
  split_ifs <;> first
    | exact le_refl _
    | exact le_add_of_nonneg_right (by norm_num)

theorem scoreRules_neutral_ge {K : Type} [LinearOrderedField K] (m : VoiceMetrics K) :
    3 / 10 ≤ (scoreRules m).neutral := by
  unfold scoreRules
  rw [ruleEnergy_neutral]
  refine le_trans ?_ (rulePitchVariation_neutral_ge m _)
  rw [ruleVolume_neutral, rulePitchFearful_neutral, rulePitchSad_neutral,
    rulePitchAngry_neutral, rulePitchHappy_neutral]

theorem get_zero_eq_of_append {α : Type} {A B t : List α} (ht : B ++ t = A)
    (hl : 0 < B.length) (hA : 0 < A.length) : A.get ⟨0, hA⟩ = B.get ⟨0, hl⟩ := by
  subst ht
  simp only [List.get_eq_getElem]
  exact List.getElem_append_left hl

theorem dropWhile_eq_self_of_isPrefix (p : Char → Bool) (l B : List Char)
    (hpre : B <+: List.dropWhile p l) : List.dropWhile p B = B := by
  obtain ⟨t, ht⟩ := hpre
  rw [List.dropWhile_eq_self_iff]
  intro hl
  have hlen : 0 < (List.dropWhile p l).length := by
    rw [← ht, List.length_append]
    omega
  have hget := List.dropWhile_get_zero_not p l hlen
  rw [get_zero_eq_of_append ht hl hlen] at hget
  exact hget

theorem jsTrim_idem (s : List Char) : jsTrim (jsTrim s) = jsTrim s := by
  unfold jsTrim
  rw [dropWhile_eq_self_of_isPrefix Char.isWhitespace s _ (List.rdropWhile_prefix _ _),
    List.rdropWhile_idempotent]

theorem foldl_add_eq (l : List ℝ) : ∀ a : ℝ, l.foldl (· + ·) a = a + l.sum := by
  induction l with
  | nil => intro a; simp
  | cons x t ih =>
    intro a
    simp only [List.foldl_cons, List.sum_cons, ih]
    ring

theorem listSum_eq_sum (l : List ℝ) : listSum l = l.sum := by
  unfold listSum
  rw [foldl_add_eq, zero_add]

theorem pushHistory_length_le (h : List ℝ) (x : ℝ) (hh : h.length ≤ 20) :
    (pushHistory h x).length ≤ 20 := by
  simp only [pushHistory]
  split_ifs with hgt
  · simp only [List.length_tail, List.length_append, List.length_singleton]
    omega
  · simp only [List.length_append, List.length_singleton] at hgt ⊢
    omega

theorem foldl_pushHistory_length_le (samples : List ℝ) :
    ∀ h : List ℝ, h.length ≤ 20 → (samples.foldl pushHistory h).length ≤ 20 := by
  induction samples with
  | nil => intro h hh; exact hh
  | cons x t ih => intro h hh; exact ih _ (pushHistory_length_le h x hh)

theorem calculateStdDev_const (values : List ℝ) (c : ℝ)
    (hc : ∀ y ∈ values, y = c) : calculateStdDev values = 0 := by
  simp only [calculateStdDev]
  split_ifs with h0
  · rfl
  · have hrep : values = List.replicate values.length c := List.eq_replicate_length.mpr hc
    have hn : (0 : ℝ) < values.length := by
      exact_mod_cast Nat.pos_of_ne_zero h0
    simp only [listSum_eq_sum]
    have hmean : (values.sum : ℝ) / values.length = c := by
      conv_lhs => rw [hrep]
      rw [List.sum_replicate, nsmul_eq_mul, List.length_replicate]
      exact mul_div_cancel_left₀ c (ne_of_gt hn)
    rw [hmean]
    conv_lhs => rw [hrep]
    simp [List.map_replicate, List.sum_replicate, sub_self]

theorem calculateStdDev_eq_spec (values : List ℝ) :
    calculateStdDev values = popStdDevSpec values := by
  simp only [calculateStdDev, popStdDevSpec, listSum_eq_sum, List.length_eq_zero]

/-! ### Claim theorems -/

/-- C1: with both modalities present and differing labels, fusion returns the
label of the modality with the higher weighted score (facial wins ties), and
the returned confidence is max(0.55·f, 0.38·v). -/
theorem combine_different_labels (f : EmotionResult) (v : VoiceEmotionResult ℚ)
    (hf0 : 0 ≤ f.confidence) (hf1 : f.confidence ≤ 1)
    (hv0 : 0 ≤ v.confidence) (hv1 : v.confidence ≤ 1)
    (hne : Emotion.str f.dominant ≠ VoiceEmotion.str v.emotion) :
    combineEmotions (some f) (some v) =
      some ⟨if 38 / 100 * v.confidence ≤ 55 / 100 * f.confidence
            then Emotion.str f.dominant else VoiceEmotion.str v.emotion,
            max (55 / 100 * f.confidence) (38 / 100 * v.confidence)⟩ := by
  simp only [combineEmotions]
  rw [if_neg hne,
    show f.confidence * (55 / 100) = 55 / 100 * f.confidence from mul_comm _ _,
    show v.confidence * (38 / 100) = 38 / 100 * v.confidence from mul_comm _ _]
  by_cases h : 38 / 100 * v.confidence ≤ 55 / 100 * f.confidence
  · rw [if_pos h, if_pos h, max_eq_left h]
  · rw [if_neg h, if_neg h, max_eq_right (le_of_lt (lt_of_not_le h))]

/-- C1 witness: concrete fused estimate for happy-face (confidence 1) vs
sad-voice (confidence 1). -/
theorem combine_different_labels_witness :
    combineEmotions (some ⟨Emotion.happy, 1, fun _ => 0, 0⟩)
        (some ⟨VoiceEmotion.sad, 1, ⟨0, 0, 0, 0, 0, 0⟩, 0⟩) =
      some ⟨if 38 / 100 * (1 : ℚ) ≤ 55 / 100 * (1 : ℚ) then Emotion.str Emotion.happy
            else VoiceEmotion.str VoiceEmotion.sad,
            max (55 / 100 * (1 : ℚ)) (38 / 100 * (1 : ℚ))⟩ :=
  combine_different_labels ⟨Emotion.happy, 1, fun _ => 0, 0⟩
    ⟨VoiceEmotion.sad, 1, ⟨0, 0, 0, 0, 0, 0⟩, 0⟩
    (by norm_num) (by norm_num) (by norm_num) (by norm_num) (by decide)

/-- C2: with both modalities present and equal labels, fusion keeps the label
and returns confidence min(1, (0.55·f + 0.38·v)·1.2), which lies in [0,1]. -/
theorem combine_same_label (f : EmotionResult) (v : VoiceEmotionResult ℚ)
    (hf0 : 0 ≤ f.confidence) (hf1 : f.confidence ≤ 1)
    (hv0 : 0 ≤ v.confidence) (hv1 : v.confidence ≤ 1)
    (heq : Emotion.str f.dominant = VoiceEmotion.str v.emotion) :
    combineEmotions (some f) (some v) =
      some ⟨Emotion.str f.dominant,
        min 1 ((55 / 100 * f.confidence + 38 / 100 * v.confidence) * (12 / 10))⟩ ∧
    0 ≤ min 1 ((55 / 100 * f.confidence + 38 / 100 * v.confidence) * (12 / 10)) ∧
    min 1 ((55 / 100 * f.confidence + 38 / 100 * v.confidence) * (12 / 10)) ≤ 1 := by
  refine ⟨?_, ?_, min_le_left _ _⟩
  · simp only [combineEmotions]
    rw [if_pos heq,
      show f.confidence * (55 / 100) = 55 / 100 * f.confidence from mul_comm _ _,
      show v.confidence * (38 / 100) = 38 / 100 * v.confidence from mul_comm _ _]
  · refine le_min (by norm_num) ?_
    exact mul_nonneg
      (add_nonneg (mul_nonneg (by norm_num) hf0) (mul_nonneg (by norm_num) hv0))
      (by norm_num)

/-- C2 witness: concrete fused estimate when both modalities agree on happy
with confidences 1 and 1/2. -/
theorem combine_same_label_witness :
    combineEmotions (some ⟨Emotion.happy, 1, fun _ => 0, 0⟩)
        (some ⟨VoiceEmotion.happy, 1 / 2, ⟨0, 0, 0, 0, 0, 0⟩, 0⟩) =
      some ⟨Emotion.str Emotion.happy,
        min 1 ((55 / 100 * (1 : ℚ) + 38 / 100 * (1 / 2 : ℚ)) * (12 / 10))⟩ :=
  (combine_same_label ⟨Emotion.happy, 1, fun _ => 0, 0⟩
    ⟨VoiceEmotion.happy, 1 / 2, ⟨0, 0, 0, 0, 0, 0⟩, 0⟩
    (by norm_num) (by norm_num) (by norm_num) (by norm_num) (by decide)).1

/-- C3 counterexample: on the spec's worked example (pitch 300, volume 0.2,
energy 0.5, pitch variation 10) the classifier does not return "happy"
(sad scores 0.5, which beats happy's 0.3 and neutral's 0.4). -/
theorem classifier_example_not_happy :
    (detectEmotion metricsC3).1 ≠ VoiceEmotion.happy := by
  norm_num [metricsC3, detectEmotion, scoreRules, rulePitchHappy, rulePitchAngry,
    rulePitchSad, rulePitchFearful, ruleVolume, rulePitchVariation, ruleEnergy,
    pickDominant, scoreEntries, maxStep]
  decide

/-- C3 amended: on the spec's worked example the classifier returns "sad"
with confidence 0.5 (the winning score, clamped to 1). -/
theorem classifier_example_value :
    detectEmotion metricsC3 = (VoiceEmotion.sad, 1 / 2) := by
  norm_num [metricsC3, detectEmotion, scoreRules, rulePitchHappy, rulePitchAngry,
    rulePitchSad, rulePitchFearful, ruleVolume, rulePitchVariation, ruleEnergy,
    pickDominant, scoreEntries, maxStep]

/-- C4: a final segment with non-empty trimmed text triggers exactly one
user send with the trimmed text and clears the in-progress transcript; a
non-final segment, or a final one whose trimmed text is empty, triggers no
send. -/
theorem final_transcript_send (r : TranscriptSegment) :
    (r.isFinal = true → jsTrim r.text ≠ [] →
      (onTranscriptionHandler r).sends = [⟨"user", jsTrim r.text⟩] ∧
      (onTranscriptionHandler r).currentTranscript = []) ∧
    (r.isFinal = false → (onTranscriptionHandler r).sends = []) ∧
    (jsTrim r.text = [] → (onTranscriptionHandler r).sends = []) := by
  refine ⟨fun hf hne => ?_, fun hf => ?_, fun he => ?_⟩
  · unfold onTranscriptionHandler
    rw [if_pos ⟨hf, hne⟩]
    refine ⟨?_, rfl⟩
    show sendMessage (jsTrim r.text) = _
    unfold sendMessage
    rw [jsTrim_idem, if_neg hne]
  · unfold onTranscriptionHandler
    rw [if_neg (by simp [hf])]
  · unfold onTranscriptionHandler
    rw [if_neg (by simp [he])]

/-- C4 witness: the final segment "hello" produces exactly one user send
with content "hello" and clears the transcript. -/
theorem final_transcript_send_witness :
    (onTranscriptionHandler ⟨['h','e','l','l','o'], true, 9 / 10, 0⟩).sends =
      [⟨"user", ['h','e','l','l','o']⟩] ∧
    (onTranscriptionHandler ⟨['h','e','l','l','o'], true, 9 / 10, 0⟩).currentTranscript = [] := by
  have h := (final_transcript_send ⟨['h','e','l','l','o'], true, 9 / 10, 0⟩).1 rfl (by decide)
  have he : jsTrim ['h','e','l','l','o'] = ['h','e','l','l','o'] := by decide
  exact ⟨by rw [h.1, he], h.2⟩

/-- C5: an "ended" notification schedules exactly one restart attempt after
the fixed 100 ms delay when the transcribing-intent flag is set (and none
when it is clear); the delayed attempt runs `start()` once, logs a throw,
and performs no further retry inside the handler. -/
theorem ended_restart_policy :
    (∀ s : RecognitionState, s.isTranscribing = true → s.hasRecognition = true →
      onendSchedule s = some 100) ∧
    (∀ s : RecognitionState, s.isTranscribing = false → onendSchedule s = none) ∧
    (∀ th : Bool, (restartCallback true th).startAttempts = 1 ∧
      (restartCallback true th).extraRetries = 0) ∧
    (restartCallback true true).warnLogged = true ∧
    (∀ th : Bool, (restartCallback false th).startAttempts = 0) := by
  refine ⟨?_, ?_, ?_, rfl, ?_⟩
  · intro s h1 h2
    unfold onendSchedule
    rw [if_pos ⟨h1, h2⟩]
  · intro s h1
    unfold onendSchedule
    rw [if_neg (by simp [h1])]
  · intro th
    cases th <;> exact ⟨rfl, rfl⟩
  · intro th
    cases th <;> rfl

/-- C5 witness: with the flag set an "ended" event schedules the 100 ms
restart; with it clear, none is scheduled. -/
theorem ended_restart_policy_witness :
    onendSchedule ⟨true, true⟩ = some 100 ∧ onendSchedule ⟨false, true⟩ = none :=
  ⟨ended_restart_policy.1 ⟨true, true⟩ rfl rfl, ended_restart_policy.2.1 ⟨false, true⟩ rfl⟩

/-- C6: the listening controls never change `isFaceDetectionActive` and the
face-detection controls never change `isListening`, from any hook state. -/
theorem listening_face_flags_independent (s : HookState) :
    (startListening s).isFaceDetectionActive = s.isFaceDetectionActive ∧
    (stopListening s).isFaceDetectionActive = s.isFaceDetectionActive ∧
    (startFaceDetection s).isListening = s.isListening ∧
    (stopFaceDetection s).isListening = s.isListening := by
  refine ⟨?_, rfl, ?_, rfl⟩
  · unfold startListening
    split_ifs <;> rfl
  · unfold startFaceDetection
    split_ifs <;> rfl

/-- C7: while the loop is running, a tick whose extracted energy is at most
0.1 emits nothing and leaves both histories unchanged, and every tick
reschedules the next one regardless of the energy gate. -/
theorem tick_energy_gate (s : AnalysisLoopState) (raw : VoiceMetrics ℝ) (now : ℕ)
    (hl : s.isListening = true) (ha : s.hasAnalyser = true) :
    (raw.energy ≤ 1 / 10 →
      (runAnalysisTick s raw now).emission = none ∧
      (runAnalysisTick s raw now).state.pitchHistory = s.pitchHistory ∧
      (runAnalysisTick s raw now).state.volumeHistory = s.volumeHistory) ∧
    (runAnalysisTick s raw now).rescheduled = true := by
  unfold runAnalysisTick
  rw [if_pos ⟨hl, ha⟩]
  by_cases h : 1 / 10 < raw.energy
  · rw [if_pos h]
    exact ⟨fun he => absurd h (not_lt.mpr he), rfl⟩
  · rw [if_neg h]
    exact ⟨fun _ => ⟨rfl, rfl, rfl⟩, rfl⟩

/-- C7 witness: a silent tick in the running state emits nothing and still
reschedules. -/
theorem tick_energy_gate_witness :
    (runAnalysisTick ⟨true, true, [], []⟩ zeroMetricsR 0).rescheduled = true ∧
    (runAnalysisTick ⟨true, true, [], []⟩ zeroMetricsR 0).emission = none := by
  have h := tick_energy_gate ⟨true, true, [], []⟩ zeroMetricsR 0 rfl rfl
  exact ⟨h.2, (h.1 (by norm_num [zeroMetricsR])).1⟩

/-- C8: a history never exceeds 20 samples under updates (also from empty
along any sample sequence); the computed deviation is the population
standard deviation, and it is 0 for empty, single-sample and constant
windows. -/
theorem rolling_tracker_props :
    (∀ (h : List ℝ) (x : ℝ), h.length ≤ 20 → (pushHistory h x).length ≤ 20) ∧
    (∀ samples : List ℝ, (samples.foldl pushHistory []).length ≤ 20) ∧
    (∀ values : List ℝ, calculateStdDev values = popStdDevSpec values) ∧
    calculateStdDev [] = 0 ∧
    (∀ x : ℝ, calculateStdDev [x] = 0) ∧
    (∀ (values : List ℝ) (c : ℝ), (∀ y ∈ values, y = c) → calculateStdDev values = 0) := by
  refine ⟨pushHistory_length_le,
    fun samples => foldl_pushHistory_length_le samples [] (by simp),
    calculateStdDev_eq_spec, by simp [calculateStdDev],
    fun x => calculateStdDev_const [x] x (by simp), calculateStdDev_const⟩

/-- C8 witness: one update of an empty history stays within the cap, and the
deviation of the constant window [2, 2, 2] is 0. -/
theorem rolling_tracker_props_witness :
    (pushHistory [] 5).length ≤ 20 ∧ calculateStdDev [2, 2, 2] = 0 :=
  ⟨rolling_tracker_props.1 [] 5 (by simp),
   rolling_tracker_props.2.2.2.2.2 [2, 2, 2] 2 (by
     intro y hy
     rcases List.mem_cons.mp hy with h | hy
     · exact h
     rcases List.mem_cons.mp hy with h | hy
     · exact h
     rcases List.mem_cons.mp hy with h | hy
     · exact h
     cases hy)⟩

/-- C9 counterexample: when the underlying `recognition.start()` throws, the
exception does not reach the caller (it is caught inside
`startTranscription`), even though the flag is left false. -/
theorem start_failure_not_surfaced :
    (startTranscription ⟨false, true⟩ (some "NotAllowedError")).thrownToCaller = none ∧
    (startTranscription ⟨false, true⟩ (some "NotAllowedError")).state.isTranscribing = false :=
  ⟨rfl, rfl⟩

/-- C9 amended: when start is invoked (not already transcribing, recognition
present) and the underlying start throws, the flag is left false, the error
is logged rather than rethrown to the caller, and exactly one start attempt
is made (no automatic retry). -/
theorem start_failure_clears_flag (s : RecognitionState) (e : String)
    (h1 : s.isTranscribing = false) (h2 : s.hasRecognition = true) :
    (startTranscription s (some e)).state.isTranscribing = false ∧
    (startTranscription s (some e)).errorLogged = true ∧
    (startTranscription s (some e)).thrownToCaller = none ∧
    (startTranscription s (some e)).startAttempts = 1 := by
  unfold startTranscription
  rw [if_neg (by simp [h1]), if_neg (by simp [h2])]
  exact ⟨rfl, rfl, rfl, rfl⟩

/-- C9 witness: concrete failed start from the idle state. -/
theorem start_failure_clears_flag_witness :
    (startTranscription ⟨false, true⟩ (some "err")).state.isTranscribing = false ∧
    (startTranscription ⟨false, true⟩ (some "err")).startAttempts = 1 :=
  ⟨(start_failure_clears_flag ⟨false, true⟩ "err" rfl rfl).1,
   (start_failure_clears_flag ⟨false, true⟩ "err" rfl rfl).2.2.2⟩

/-- C10: the classifier's reported confidence always lies in [0.3, 1]: the
neutral prior of 0.3 bounds the maximum score from below, and the clamp
bounds the result above. -/
theorem classifier_confidence_range {K : Type} [LinearOrderedField K] (m : VoiceMetrics K) :
    3 / 10 ≤ (detectEmotion m).2 ∧ (detectEmotion m).2 ≤ 1 := by
  simp only [detectEmotion, pickDominant]
  refine ⟨le_min (by norm_num) ?_, min_le_left _ _⟩
  refine le_trans (scoreRules_neutral_ge m) ?_
  exact foldl_maxStep_mem _ _ (VoiceEmotion.neutral, (scoreRules m).neutral)
    (by simp [scoreEntries])

end SevenPercent
